import Mathlib

/-!
Verification development for the engagement core of the sticky-net honeypot:
a shallow embedding of `src/agents/policy.py`, `src/agents/persona.py` and the
orchestration logic of `src/agents/honeypot_agent.py`, together with theorems
about the embedded definitions.

Conventions of the embedding:
* Python floats become rationals (`ℚ`); all comparisons in the source are
  order comparisons, so the embedding is exact.
* Python strings become `List Char`; the persona dictionary becomes an
  association list with Python `dict` get/set/pop semantics.
* Randomness (`random.random()`, `random.choice`) is passed in explicitly as
  a draw `r : ℚ` or a choice index.
* The external LLM calls are modelled by their observable outcome
  (`ModelResult`): the call raised, or returned a possibly missing text.
* Logging, prompt building and the notes string of `EngagementResult` are
  elided: no verified claim mentions them.
-/

namespace StickyNet

/-- `str.toList` shorthand: the embedding works over `List Char`. -/
def strL (s : String) : List Char := s.toList

/-! ## policy.py -/

/-- `EngagementMode` from `policy.py`. -/
inductive EngagementMode where
  | none
  | cautious
  | aggressive
deriving DecidableEq, Repr

/-- The ordering none < cautious < aggressive used by the spec's
monotonicity property. -/
def modeRank : EngagementMode → Nat
  | .none => 0
  | .cautious => 1
  | .aggressive => 2

/-- `EngagementState` dataclass from `policy.py`. -/
structure EngagementState where
  mode : EngagementMode
  turn_count : Nat
  duration_seconds : Nat
  intelligence_complete : Bool
  scammer_suspicious : Bool
  turns_since_new_info : Nat
deriving DecidableEq, Repr

/-- The configuration fields of `EngagementPolicy.__init__`. -/
structure EngagementPolicy where
  cautious_threshold : ℚ
  aggressive_threshold : ℚ
  max_turns_cautious : Nat
  max_turns_aggressive : Nat
  max_duration_seconds : Nat
  stale_turn_threshold : Nat

/-- The default configuration values recorded in the source's comments
(0.60, 0.85, 10, 25, 600) and the fixed stale threshold 5. -/
def defaultPolicy : EngagementPolicy :=
  { cautious_threshold := 0.60
    aggressive_threshold := 0.85
    max_turns_cautious := 10
    max_turns_aggressive := 25
    max_duration_seconds := 600
    stale_turn_threshold := 5 }

/-- `EngagementPolicy.get_engagement_mode`. -/
def get_engagement_mode (P : EngagementPolicy) (confidence : ℚ) : EngagementMode :=
  if confidence ≥ P.aggressive_threshold then .aggressive
  else if confidence ≥ P.cautious_threshold then .cautious
  else .none

/-- The `max_turns` selection shared by `should_continue` and
`get_exit_reason`: the aggressive limit for aggressive mode, the cautious
limit otherwise. -/
def max_turns_for (P : EngagementPolicy) (mode : EngagementMode) : Nat :=
  if mode = .aggressive then P.max_turns_aggressive else P.max_turns_cautious

/-- `EngagementPolicy.should_continue`. -/
def should_continue (P : EngagementPolicy) (s : EngagementState) : Bool :=
  let max_turns := max_turns_for P s.mode
  if s.turn_count ≥ max_turns then false
  else if s.duration_seconds ≥ P.max_duration_seconds then false
  else if s.intelligence_complete then false
  else if s.scammer_suspicious then false
  else if s.turns_since_new_info ≥ P.stale_turn_threshold then false
  else true

/-- `EngagementPolicy.get_exit_reason`. -/
def get_exit_reason (P : EngagementPolicy) (s : EngagementState) : Option String :=
  let max_turns := max_turns_for P s.mode
  if s.turn_count ≥ max_turns then
    some ("Max turns reached (" ++ toString max_turns ++ ")")
  else if s.duration_seconds ≥ P.max_duration_seconds then
    some ("Max duration exceeded (" ++ toString P.max_duration_seconds ++ "s)")
  else if s.intelligence_complete then
    some "Intelligence extraction complete"
  else if s.scammer_suspicious then
    some "Scammer became suspicious"
  else if s.turns_since_new_info ≥ P.stale_turn_threshold then
    some ("No new information in " ++ toString P.stale_turn_threshold ++ " turns")
  else none

/-- Modelled from the spec: the exit reason as "the first matching reason" of
the five stop conditions in the fixed priority order (turns exhausted,
duration exhausted, intelligence complete, scammer suspicious, stale), to be
compared with `get_exit_reason` from the source. -/
def exitReasonSpec (P : EngagementPolicy) (s : EngagementState) : Option String :=
  let mt := max_turns_for P s.mode
  List.findSome? (fun c => if c.1 then some c.2 else Option.none)
    [ (decide (s.turn_count ≥ mt), "Max turns reached (" ++ toString mt ++ ")"),
      (decide (s.duration_seconds ≥ P.max_duration_seconds),
        "Max duration exceeded (" ++ toString P.max_duration_seconds ++ "s)"),
      (s.intelligence_complete, "Intelligence extraction complete"),
      (s.scammer_suspicious, "Scammer became suspicious"),
      (decide (s.turns_since_new_info ≥ P.stale_turn_threshold),
        "No new information in " ++ toString P.stale_turn_threshold ++ " turns") ]

/-! ## persona.py -/

/-- `PersonaTrait` from `persona.py`. -/
inductive PersonaTrait where
  | trusting
  | worried
  | confused
  | cooperative
  | tech_naive
deriving DecidableEq, Repr

/-- `EmotionalState` from `persona.py`. -/
inductive EmotionalState where
  | calm
  | anxious
  | panicked
  | relieved
  | suspicious
deriving DecidableEq, Repr

/-- The default trait list of a fresh `Persona`. -/
def defaultTraits : List PersonaTrait :=
  [.trusting, .worried, .tech_naive]

/-- The `Persona` dataclass. `mentioned_details` maps string keys to values
the modelled code never inspects; string values stand in for `Any`. -/
structure Persona where
  traits : List PersonaTrait := defaultTraits
  emotional_state : EmotionalState := .calm
  engagement_turn : Nat := 0
  extracted_info_count : Nat := 0
  claimed_issues : List (List Char) := []
  mentioned_details : List (List Char × List Char) := []
deriving DecidableEq, Repr

/-- A fresh `Persona()` with all defaults. -/
def defaultPersona : Persona := {}

/-- The thresholding rule of `Persona.update_emotional_state`:
`> 0.8 → panicked`, `> 0.5 → anxious`, else `calm`. -/
def emotional_of_intensity (i : ℚ) : EmotionalState :=
  if i > 0.8 then .panicked
  else if i > 0.5 then .anxious
  else .calm

/-- `Persona.update_emotional_state` (state update as a function). -/
def Persona.update_emotional_state (p : Persona) (scam_intensity : ℚ) : Persona :=
  { p with emotional_state := emotional_of_intensity scam_intensity }

/-- `Persona.get_emotional_modifier`: the text modifier of each emotional
state (the `modifiers.get` lookup is total over the enum). -/
def get_emotional_modifier (e : EmotionalState) : List Char :=
  match e with
  | .calm => strL ""
  | .anxious => strL "I'm getting worried... "
  | .panicked => strL "Oh god, please help! "
  | .relieved => strL "Thank goodness... "
  | .suspicious => strL "Hmm, "

/-- The probability computed inside `Persona.should_ask_extraction_question`:
`0.4 + min(0.3, turn*0.1) - count*0.15`. -/
def extraction_probability (turn count : Nat) : ℚ :=
  0.4 + min 0.3 ((turn : ℚ) * 0.1) - (count : ℚ) * 0.15

/-- `Persona.should_ask_extraction_question`, with the uniform draw
`r = random.random() ∈ [0,1)` passed explicitly: returns `r < probability`. -/
def should_ask_extraction_question (r : ℚ) (p : Persona) : Bool :=
  decide (r < extraction_probability p.engagement_turn p.extracted_info_count)

/-- `Persona.record_extraction`. -/
def Persona.record_extraction (p : Persona) : Persona :=
  { p with extracted_info_count := p.extracted_info_count + 1 }

/-- `Persona.increment_turn`. -/
def Persona.increment_turn (p : Persona) : Persona :=
  { p with engagement_turn := p.engagement_turn + 1 }

/-- The `PersonaManager.personas` dict, as the map it denotes: a key is
present iff the map returns `some`. -/
def PersonaStore := String → Option Persona

/-- A `PersonaManager()` fresh from `__init__`: the empty dict. -/
def emptyStore : PersonaStore := fun _ => Option.none

/-- Dict lookup (`self.personas[cid]` / `cid in self.personas`). -/
def storeFind (s : PersonaStore) (cid : String) : Option Persona := s cid

/-- Dict assignment `self.personas[cid] = p`. -/
def storeSet (s : PersonaStore) (cid : String) (p : Persona) : PersonaStore :=
  fun k => if k = cid then some p else s k

/-- Dict `self.personas.pop(cid, None)` (the store part). -/
def storePop (s : PersonaStore) (cid : String) : PersonaStore :=
  fun k => if k = cid then Option.none else s k

/-- `PersonaManager.get_or_create_persona`: the returned persona and the
store after the call. -/
def get_or_create_persona (s : PersonaStore) (cid : String) : Persona × PersonaStore :=
  match storeFind s cid with
  | some p => (p, s)
  | Option.none => (defaultPersona, storeSet s cid defaultPersona)

/-- `PersonaManager.update_persona`: fetch-or-create, increment the turn,
re-threshold the emotional state, record an extraction when asked.  Python
mutates the stored object in place; the embedding writes it back. -/
def update_persona (s : PersonaStore) (cid : String) (scam_intensity : ℚ)
    (extracted_something : Bool) : Persona × PersonaStore :=
  let pr := get_or_create_persona s cid
  let p1 := pr.1.increment_turn
  let p2 := p1.update_emotional_state scam_intensity
  let p3 := if extracted_something then p2.record_extraction else p2
  (p3, storeSet pr.2 cid p3)

/-- `PersonaManager.clear_persona`: `self.personas.pop(cid, None)`. -/
def clear_persona (s : PersonaStore) (cid : String) : PersonaStore :=
  storePop s cid

/-! ## prompts.py (the data the orchestrator draws from) -/

/-- `EXTRACTION_QUESTIONS` from `prompts.py`. -/
def EXTRACTION_QUESTIONS : List (List Char) :=
  [ strL "Which account number should I use for the transfer?",
    strL "What's your UPI ID? I'll send the amount right now.",
    strL "Can you send me the link again? It's not working on my phone.",
    strL "What number should I call if I have problems?",
    strL "Should I share my account details for verification?",
    strL "Where exactly do I need to click? Can you share the website?" ]

/-! ## honeypot_agent.py -/

/-- The four canned fallback strings of
`HoneypotAgent._get_fallback_response`. -/
def fallback_responses : List (List Char) :=
  [ strL "I'm sorry, I'm a bit confused. Can you explain that again?",
    strL "My phone is acting up. What do I need to do exactly?",
    strL "I didn't understand. Can you tell me step by step?",
    strL "Okay, but what should I do first? I'm worried." ]

/-- `HoneypotAgent._get_fallback_response`: `random.choice` with the drawn
index passed explicitly (reduced modulo the list length). -/
def get_fallback_response (i : Nat) : List Char :=
  fallback_responses.getD (i % 4) []

/-- The observable outcome of one `generate_content` call inside
`_generate_response`: the call raised, or returned with `response.text`
being missing (`None`) or some string. -/
inductive ModelResult where
  | exn
  | text (t : Option (List Char))
deriving DecidableEq, Repr

/-- Python `str.strip()` over `List Char`. -/
def pyStrip (s : List Char) : List Char :=
  ((s.dropWhile Char.isWhitespace).reverse.dropWhile Char.isWhitespace).reverse

/-- The loop guard `if response_text and len(response_text.strip()) > 0`:
`response_text` is truthy and has a non-whitespace character. -/
def usable : Option (List Char) → Bool
  | Option.none => false
  | some s => !s.isEmpty && !(pyStrip s).isEmpty

/-- The `for model_name in models_to_try` loop of `_generate_response`:
`response_text` starts as `None`; an exception leaves it unchanged, a
returned result overwrites it; the loop breaks early when the guard holds
after the first model. -/
def try_models (m1 m2 : ModelResult) : Option (List Char) :=
  let rt1 : Option (List Char) :=
    match m1 with
    | .exn => Option.none
    | .text t => t
  if usable rt1 then rt1
  else
    match m2 with
    | .exn => rt1
    | .text t => t

/-- Python `response_text.lower()`. -/
def lowerL (s : List Char) : List Char := s.map Char.toLower

/-- The keyword list `["account", "upi", "link", "number"]` of the
extraction-question guard. -/
def keywords : List (List Char) :=
  [strL "account", strL "upi", strL "link", strL "number"]

/-- Python's `q in s` substring test over `List Char`. -/
def containsSub (q : List Char) : List Char → Bool
  | [] => q.isEmpty
  | c :: rest => q.isPrefixOf (c :: rest) || containsSub q rest

/-- `any(q in response_text.lower() for q in ["account","upi","link","number"])`. -/
def containsAnyKeyword (s : List Char) : Bool :=
  keywords.any (fun q => containsSub q (lowerL s))

/-- Python `response_text.rstrip(".")`. -/
def rstripDots (s : List Char) : List Char :=
  (s.reverse.dropWhile (fun c => c == '.')).reverse

/-- The emotional-modifier block of `_generate_response`: when the turn is
positive and the modifier is non-empty, prepend it unless the text already
starts with it. -/
def apply_modifier (p : Persona) (t : List Char) : List Char :=
  if p.engagement_turn > 0 then
    let modifier := get_emotional_modifier p.emotional_state
    if modifier = [] then t
    else if modifier.isPrefixOf t then t
    else modifier ++ t
  else t

/-- The explicit random draws and model outcomes one `_generate_response`
call consumes. `ask` is the outcome of the `should_ask_extraction_question`
coin, `qi` the `random.choice` index into `EXTRACTION_QUESTIONS`, `fi` the
fallback choice used when no model text arrives. -/
structure GenInputs where
  m1 : ModelResult
  m2 : ModelResult
  ask : Bool
  qi : Nat
  fi : Nat
deriving DecidableEq, Repr

/-- `HoneypotAgent._generate_response` after the model loop: the reply text
and whether `persona.record_extraction()` ran.  A falsy `response_text`
(missing or empty) returns a fallback reply with no post-processing;
otherwise the modifier is applied and an extraction question is appended
when the coin says so and no keyword already occurs in the reply. -/
def generate_response (p : Persona) (g : GenInputs) : List Char × Bool :=
  match try_models g.m1 g.m2 with
  | Option.none => (get_fallback_response g.fi, false)
  | some t =>
    if t = [] then (get_fallback_response g.fi, false)
    else
      let t1 := apply_modifier p t
      if g.ask then
        if containsAnyKeyword t1 then (t1, false)
        else (rstripDots t1 ++ ' ' :: EXTRACTION_QUESTIONS.getD (g.qi % 6) [], true)
      else (t1, false)

/-- `EngagementResult` from `honeypot_agent.py` (the notes string is
elided: no claim mentions its content). -/
structure EngagementResult where
  response : List Char
  duration_seconds : Nat
  conversation_id : String
  turn_number : Nat
  engagement_mode : EngagementMode
  should_continue : Bool
  exit_reason : Option String
deriving DecidableEq, Repr

/-- The external inputs of one `HoneypotAgent.engage` call: the detection
confidence, the generation outcomes and draws, whether the
`_generate_response` call itself raised (the `except` branch of `engage`),
the fallback index of that branch, and the measured wall-clock duration. -/
structure EngageInputs where
  confidence : ℚ
  gen : GenInputs
  genThrows : Bool
  fi2 : Nat
  duration : Nat

/-- `HoneypotAgent.engage`: mode from confidence, persona update, response
generation with fallback on an exception, the extraction write-back, the
fresh `EngagementState` (external signals defaulted to false/zero), the
continuation verdict and conditional exit reason, and the result record.
Returns the result together with the persona store after the call. -/
def engage (P : EngagementPolicy) (store : PersonaStore) (cid : String)
    (inp : EngageInputs) : EngagementResult × PersonaStore :=
  let engagement_mode := get_engagement_mode P inp.confidence
  let up := update_persona store cid inp.confidence false
  let persona := up.1
  let s1 := up.2
  let gen :=
    if inp.genThrows then (get_fallback_response inp.fi2, false)
    else generate_response persona inp.gen
  let s2 := if gen.2 then storeSet s1 cid persona.record_extraction else s1
  let state : EngagementState :=
    { mode := engagement_mode
      turn_count := persona.engagement_turn
      duration_seconds := inp.duration
      intelligence_complete := false
      scammer_suspicious := false
      turns_since_new_info := 0 }
  let sc := should_continue P state
  let er := if sc then Option.none else get_exit_reason P state
  ({ response := gen.1
     duration_seconds := inp.duration
     conversation_id := cid
     turn_number := persona.engagement_turn
     engagement_mode := engagement_mode
     should_continue := sc
     exit_reason := er }, s2)

/-- `HoneypotAgent.end_conversation`. -/
def end_conversation (store : PersonaStore) (cid : String) : PersonaStore :=
  clear_persona store cid

/-! ## Concrete inputs used to instantiate the theorems -/

/-- A state at the cautious turn limit with the scammer also suspicious:
the exit-reason priority test of the spec. -/
def exStatePriority : EngagementState :=
  { mode := .cautious
    turn_count := 10
    duration_seconds := 0
    intelligence_complete := false
    scammer_suspicious := true
    turns_since_new_info := 0 }

/-- Generation draws where both model calls raise. -/
def genFail : GenInputs :=
  { m1 := .exn, m2 := .exn, ask := false, qi := 0, fi := 1 }

/-- Generation draws where the primary model answers "Okay." and the
extraction coin says yes. -/
def genOk : GenInputs :=
  { m1 := .text (some (strL "Okay.")), m2 := .exn, ask := true, qi := 0, fi := 0 }

/-- Engage inputs where `_generate_response` raises. -/
def inpThrow : EngageInputs :=
  { confidence := 0.9, gen := genFail, genThrows := true, fi2 := 0, duration := 0 }

/-- A persona after one turn of a high-intensity scam. -/
def personaPanicked1 : Persona :=
  { defaultPersona with engagement_turn := 1, emotional_state := .panicked }

/-- A persona after one turn of a medium-intensity scam. -/
def personaAnx1 : Persona :=
  { defaultPersona with engagement_turn := 1, emotional_state := .anxious }

/-- A one-conversation store. -/
def store1 : PersonaStore := storeSet emptyStore "c" defaultPersona

/-- The claim's description of a model call that produced no usable text:
it raised, or returned missing or empty text. -/
def model_gave_no_text : ModelResult → Prop
  | .exn => True
  | .text Option.none => True
  | .text (some t) => t = []

/-! ## Helper lemmas -/

lemma storeFind_storeSet_self (s : PersonaStore) (cid : String) (p : Persona) :
    storeFind (storeSet s cid p) cid = some p := by
  simp [storeFind, storeSet]

lemma storeFind_storePop_self (s : PersonaStore) (cid : String) :
    storeFind (storePop s cid) cid = Option.none := by
  simp [storeFind, storePop]

lemma exit_reason_none_iff (P : EngagementPolicy) (s : EngagementState) :
    get_exit_reason P s = Option.none ↔ should_continue P s = true := by
  simp only [get_exit_reason, should_continue]
  split_ifs <;> simp

lemma update_persona_fst (store : PersonaStore) (cid : String) (i : ℚ) (ex : Bool) :
    (update_persona store cid i ex).1 =
      { (get_or_create_persona store cid).1 with
        engagement_turn := (get_or_create_persona store cid).1.engagement_turn + 1
        emotional_state := emotional_of_intensity i
        extracted_info_count :=
          (get_or_create_persona store cid).1.extracted_info_count
            + (if ex then 1 else 0) } := by
  unfold update_persona Persona.increment_turn Persona.update_emotional_state
    Persona.record_extraction
  cases ex <;> simp

lemma update_persona_snd (store : PersonaStore) (cid : String) (i : ℚ) (ex : Bool) :
    (update_persona store cid i ex).2 =
      storeSet (get_or_create_persona store cid).2 cid (update_persona store cid i ex).1 := by
  unfold update_persona
  cases ex <;> simp

lemma emotional_of_intensity_clamp (i : ℚ) :
    emotional_of_intensity i = emotional_of_intensity (max 0 (min 1 i)) := by
  unfold emotional_of_intensity
  by_cases h8 : i > 0.8
  · have hmin : (0.8 : ℚ) < min 1 i := lt_min (by norm_num) h8
    have hmax : (0.8 : ℚ) < max 0 (min 1 i) := lt_of_lt_of_le hmin (le_max_right _ _)
    rw [if_pos h8, if_pos hmax]
  · by_cases h5 : i > 0.5
    · have hle1 : i ≤ 1 := le_trans (not_lt.mp h8) (by norm_num)
      have hmin : min 1 i = i := min_eq_right hle1
      have hmax : max 0 (min 1 i) = i := by
        rw [hmin]; exact max_eq_right (by linarith)
      rw [hmax]
    · have hc : max 0 (min 1 i) ≤ 0.5 := by
        apply max_le (by norm_num)
        exact le_trans (min_le_right _ _) (not_lt.mp h5)
      have hc8 : ¬ (max 0 (min 1 i) > 0.8) := by
        intro h; linarith
      have hc5 : ¬ (max 0 (min 1 i) > 0.5) := by
        intro h; linarith
      rw [if_neg h8, if_neg h5, if_neg hc8, if_neg hc5]

lemma cond_exit_none_iff (P : EngagementPolicy) (st : EngagementState) :
    (if should_continue P st then Option.none else get_exit_reason P st) = Option.none
      ↔ should_continue P st = true := by
  by_cases h : should_continue P st = true
  · simp [h]
  · simp [h, exit_reason_none_iff]

lemma emotional_of_intensity_ne_suspicious (i : ℚ) :
    emotional_of_intensity i ≠ .suspicious ∧ emotional_of_intensity i ≠ .relieved := by
  unfold emotional_of_intensity
  split_ifs <;> simp

/-! ## Claims about the engagement policy -/

/-- C1: `should_continue` returns false iff at least one of the five stop
conditions holds, and the turn limit in force is the aggressive one exactly
in aggressive mode and the cautious one otherwise — mode `none` included. -/
theorem C1_should_continue_iff (P : EngagementPolicy) (s : EngagementState) :
    (should_continue P s = false ↔
      (s.turn_count ≥ max_turns_for P s.mode ∨
       s.duration_seconds ≥ P.max_duration_seconds ∨
       s.intelligence_complete = true ∨
       s.scammer_suspicious = true ∨
       s.turns_since_new_info ≥ P.stale_turn_threshold)) ∧
    max_turns_for P .aggressive = P.max_turns_aggressive ∧
    max_turns_for P .cautious = P.max_turns_cautious ∧
    max_turns_for P .none = P.max_turns_cautious := by
  refine ⟨?_, rfl, rfl, rfl⟩
  unfold should_continue
  split_ifs <;> simp_all

/-- C2: `get_exit_reason` returns none exactly when `should_continue` is
true; it equals the first matching reason in the spec's fixed priority
order; a state past the turn limit gets the turn-limit reason (even when
the scammer is also suspicious); and an `engage` result carries an exit
reason iff its continuation boolean is false. -/
theorem C2_exit_reason_priority (P : EngagementPolicy) (s : EngagementState)
    (store : PersonaStore) (cid : String) (inp : EngageInputs) :
    (get_exit_reason P s = Option.none ↔ should_continue P s = true) ∧
    get_exit_reason P s = exitReasonSpec P s ∧
    (s.turn_count ≥ max_turns_for P s.mode →
      get_exit_reason P s =
        some ("Max turns reached (" ++ toString (max_turns_for P s.mode) ++ ")")) ∧
    ((engage P store cid inp).1.exit_reason = Option.none ↔
      (engage P store cid inp).1.should_continue = true) := by
  refine ⟨exit_reason_none_iff P s, ?_, ?_, ?_⟩
  · simp only [get_exit_reason, exitReasonSpec, List.findSome?_cons, List.findSome?_nil,
      decide_eq_true_eq]
    split_ifs <;> simp_all
  · intro h
    simp only [get_exit_reason]
    rw [if_pos h]
  · simp only [engage]
    exact cond_exit_none_iff P _

/-- C2 witness: at the default configuration, a cautious-mode state at the
turn limit with the scammer also suspicious yields the turn-limit reason. -/
theorem C2_witness :
    get_exit_reason defaultPolicy exStatePriority =
      some ("Max turns reached ("
        ++ toString (max_turns_for defaultPolicy exStatePriority.mode) ++ ")") :=
  (C2_exit_reason_priority defaultPolicy exStatePriority emptyStore "c" inpThrow).2.2.1
    (by decide)

/-- C3: the engagement mode is monotone non-decreasing in the confidence
under none < cautious < aggressive, and both thresholds are inclusive
upward (the cautious boundary lands on cautious whenever the cautious
threshold is below the aggressive one). -/
theorem C3_mode_monotone (P : EngagementPolicy) (c1 c2 : ℚ) (h : c1 ≤ c2) :
    modeRank (get_engagement_mode P c1) ≤ modeRank (get_engagement_mode P c2) ∧
    (P.cautious_threshold < P.aggressive_threshold →
      get_engagement_mode P P.cautious_threshold = .cautious) ∧
    get_engagement_mode P P.aggressive_threshold = .aggressive := by
  refine ⟨?_, ?_, ?_⟩
  · unfold get_engagement_mode
    split_ifs <;> simp_all [modeRank] <;> linarith
  · intro hlt
    unfold get_engagement_mode
    rw [if_neg (not_le.mpr hlt), if_pos le_rfl]
  · unfold get_engagement_mode
    rw [if_pos le_rfl]

/-- C3 witness: monotonicity at 0.5 ≤ 0.7 and both boundary values, at the
default thresholds. -/
theorem C3_witness :
    modeRank (get_engagement_mode defaultPolicy 0.5)
        ≤ modeRank (get_engagement_mode defaultPolicy 0.7) ∧
    get_engagement_mode defaultPolicy defaultPolicy.cautious_threshold = .cautious ∧
    get_engagement_mode defaultPolicy defaultPolicy.aggressive_threshold = .aggressive := by
  have h := C3_mode_monotone defaultPolicy 0.5 0.7 (by norm_num)
  exact ⟨h.1, h.2.1 (by norm_num [defaultPolicy]), h.2.2⟩

/-! ## Claims about the persona store -/

/-- C4: `update_persona` is total, increments the turn by exactly one, sets
the emotional state by the intensity thresholds (its result is invariant
under clamping the intensity to [0,1], and is never suspicious or
relieved), and increments the extraction count by one exactly when
`extracted_something` is true. -/
theorem C4_update_semantics (store : PersonaStore) (cid : String) (i : ℚ) (ex : Bool) :
    (update_persona store cid i ex).1.engagement_turn
        = (get_or_create_persona store cid).1.engagement_turn + 1 ∧
    (update_persona store cid i ex).1.emotional_state
        = (if i > 0.8 then EmotionalState.panicked
           else if i > 0.5 then EmotionalState.anxious
           else EmotionalState.calm) ∧
    emotional_of_intensity i = emotional_of_intensity (max 0 (min 1 i)) ∧
    (update_persona store cid i ex).1.emotional_state ≠ EmotionalState.suspicious ∧
    (update_persona store cid i ex).1.emotional_state ≠ EmotionalState.relieved ∧
    (update_persona store cid i ex).1.extracted_info_count
        = (get_or_create_persona store cid).1.extracted_info_count
            + (if ex then 1 else 0) := by
  rw [update_persona_fst]
  refine ⟨rfl, rfl, emotional_of_intensity_clamp i, ?_, ?_, rfl⟩
  · exact (emotional_of_intensity_ne_suspicious i).1
  · exact (emotional_of_intensity_ne_suspicious i).2

/-- C5: the extraction-question coin comes up true exactly when the uniform
draw `r ∈ [0,1)` falls below the clamped probability
`clamp(0.4 + min(0.3, turn*0.1) - count*0.15, 0, 1)`, a pure function of
the turn and extraction counters; it is exactly 0.4 at (0,0), 0.7 at
(10,0) and 0 at (0,3). -/
theorem C5_extraction_probability (p : Persona) (r : ℚ) (h0 : 0 ≤ r) (_h1 : r < 1) :
    (should_ask_extraction_question r p = true ↔
      r < max 0 (min 1 (extraction_probability p.engagement_turn p.extracted_info_count))) ∧
    extraction_probability 0 0 = 0.4 ∧
    max 0 (min 1 (extraction_probability 10 0)) = 0.7 ∧
    max 0 (min 1 (extraction_probability 0 3)) = 0 := by
  refine ⟨?_, by norm_num [extraction_probability, min_def],
    by norm_num [extraction_probability, min_def, max_def],
    by norm_num [extraction_probability, min_def, max_def]⟩
  unfold should_ask_extraction_question
  have hq1 : extraction_probability p.engagement_turn p.extracted_info_count ≤ 1 := by
    have ha : min 0.3 ((p.engagement_turn : ℚ) * 0.1) ≤ 0.3 := min_le_left _ _
    have hb : (0 : ℚ) ≤ (p.extracted_info_count : ℚ) * 0.15 := by positivity
    unfold extraction_probability
    linarith
  simp only [decide_eq_true_eq]
  rw [min_eq_right hq1]
  rcases le_or_lt 0 (extraction_probability p.engagement_turn p.extracted_info_count)
    with hq0 | hq0
  · rw [max_eq_right hq0]
  · rw [max_eq_left (le_of_lt hq0)]
    constructor
    · intro h; linarith
    · intro h; linarith

/-- C5 witness: the characterization at the draw r = 1/2 and a fresh
persona, with the three concrete probability values. -/
theorem C5_witness :
    (should_ask_extraction_question (1/2) defaultPersona = true ↔
      (1/2 : ℚ) < max 0 (min 1 (extraction_probability defaultPersona.engagement_turn
        defaultPersona.extracted_info_count))) ∧
    extraction_probability 0 0 = 0.4 ∧
    max 0 (min 1 (extraction_probability 10 0)) = 0.7 ∧
    max 0 (min 1 (extraction_probability 0 3)) = 0 :=
  C5_extraction_probability defaultPersona (1/2) (by norm_num) (by norm_num)

/-- C9: `clear_persona` removes the persona (and is a total no-op when the
id is absent), and `get_or_create_persona` after a clear returns a persona
with all default field values — no state survives a clear. -/
theorem C9_clear_resets (store : PersonaStore) (cid : String) :
    storeFind (clear_persona store cid) cid = Option.none ∧
    (storeFind store cid = Option.none → clear_persona store cid = store) ∧
    (get_or_create_persona (clear_persona store cid) cid).1 = defaultPersona ∧
    defaultPersona.traits = [.trusting, .worried, .tech_naive] ∧
    defaultPersona.emotional_state = .calm ∧
    defaultPersona.engagement_turn = 0 ∧
    defaultPersona.extracted_info_count = 0 ∧
    defaultPersona.claimed_issues = [] ∧
    defaultPersona.mentioned_details = [] := by
  refine ⟨storeFind_storePop_self store cid, ?_, ?_, rfl, rfl, rfl, rfl, rfl, rfl⟩
  · intro h
    funext k
    simp only [clear_persona, storePop]
    by_cases hk : k = cid
    · rw [if_pos hk, hk]
      exact h.symm
    · rw [if_neg hk]
  · unfold get_or_create_persona clear_persona
    rw [storeFind_storePop_self store cid]

/-- C9 witness: clearing an id absent from the empty store leaves the store
unchanged. -/
theorem C9_witness : clear_persona emptyStore "c" = emptyStore :=
  (C9_clear_resets emptyStore "c").2.1 rfl

/-- C10: `update_persona` never changes the traits, claimed issues or
mentioned details, and `get_or_create_persona` on an id that already holds
a persona returns that persona and leaves the store untouched. -/
theorem C10_update_frame (store : PersonaStore) (cid : String) (i : ℚ) (ex : Bool) :
    (update_persona store cid i ex).1.traits
        = (get_or_create_persona store cid).1.traits ∧
    (update_persona store cid i ex).1.claimed_issues
        = (get_or_create_persona store cid).1.claimed_issues ∧
    (update_persona store cid i ex).1.mentioned_details
        = (get_or_create_persona store cid).1.mentioned_details ∧
    (∀ p : Persona, storeFind store cid = some p →
      get_or_create_persona store cid = (p, store)) := by
  rw [update_persona_fst]
  refine ⟨rfl, rfl, rfl, ?_⟩
  intro p h
  unfold get_or_create_persona
  rw [h]

/-- C10 witness: fetching an existing persona mutates nothing. -/
theorem C10_witness : get_or_create_persona store1 "c" = (defaultPersona, store1) :=
  (C10_update_frame store1 "c" 1 true).2.2.2 defaultPersona rfl

/-! ## Helper lemmas for the orchestrator -/

lemma get_fallback_response_mem (i : Nat) :
    get_fallback_response i ∈ fallback_responses ∧ get_fallback_response i ≠ [] := by
  have h4 : i % 4 = 0 ∨ i % 4 = 1 ∨ i % 4 = 2 ∨ i % 4 = 3 := by omega
  unfold get_fallback_response
  rcases h4 with h | h | h | h <;> rw [h] <;> decide

lemma generate_response_no_text (p : Persona) (g : GenInputs)
    (h1 : model_gave_no_text g.m1) (h2 : model_gave_no_text g.m2) :
    generate_response p g = (get_fallback_response g.fi, false) := by
  obtain ⟨m1, m2, ask, qi, fi⟩ := g
  unfold generate_response try_models
  cases m1 with
  | exn =>
    cases m2 with
    | exn => simp [usable]
    | text t2 =>
      cases t2 with
      | none => simp [usable]
      | some l2 =>
        have : l2 = [] := h2
        subst this
        simp [usable]
  | text t1 =>
    cases t1 with
    | none =>
      cases m2 with
      | exn => simp [usable]
      | text t2 =>
        cases t2 with
        | none => simp [usable]
        | some l2 =>
          have : l2 = [] := h2
          subst this
          simp [usable]
    | some l1 =>
      have : l1 = [] := h1
      subst this
      cases m2 with
      | exn => simp [usable]
      | text t2 =>
        cases t2 with
        | none => simp [usable]
        | some l2 =>
          have : l2 = [] := h2
          subst this
          simp [usable]

lemma apply_modifier_prefix (p : Persona) (t : List Char)
    (h0 : p.engagement_turn > 0) (hm : get_emotional_modifier p.emotional_state ≠ []) :
    ∃ rest, apply_modifier p t = get_emotional_modifier p.emotional_state ++ rest := by
  unfold apply_modifier
  rw [if_pos h0]
  simp only [if_neg hm]
  by_cases hp : (get_emotional_modifier p.emotional_state).isPrefixOf t = true
  · rw [if_pos hp]
    obtain ⟨rest, hr⟩ := List.isPrefixOf_iff_prefix.mp hp
    exact ⟨rest, hr.symm⟩
  · rw [if_neg hp]
    exact ⟨t, rfl⟩

lemma modifier_reverse_head (e : EmotionalState) (h : get_emotional_modifier e ≠ []) :
    (get_emotional_modifier e).reverse.headD '.' ≠ '.' := by
  cases e with
  | calm => exact absurd rfl h
  | anxious => decide
  | panicked => decide
  | relieved => decide
  | suspicious => decide

lemma rstripDots_append (m t : List Char) (h : m.reverse.headD '.' ≠ '.') :
    rstripDots (m ++ t) = m ++ rstripDots t := by
  unfold rstripDots
  rw [List.reverse_append, List.dropWhile_append]
  rcases hrev : m.reverse with _ | ⟨c, ms⟩
  · rw [hrev] at h
    simp at h
  · rw [hrev] at h
    simp only [List.headD_cons] at h
    have hm := congrArg List.reverse hrev
    simp at hm
    by_cases hd : (List.dropWhile (fun ch => ch == '.') t.reverse).isEmpty
    · rw [if_pos hd]
      have ht : List.dropWhile (fun ch => ch == '.') t.reverse = [] :=
        List.isEmpty_iff.mp hd
      rw [List.dropWhile_cons, if_neg (by simp [h]), ht]
      simp [hm]
    · rw [if_neg hd]
      simp [List.reverse_append, hm]

lemma engage_response (P : EngagementPolicy) (store : PersonaStore) (cid : String)
    (inp : EngageInputs) :
    (engage P store cid inp).1.response =
      (if inp.genThrows then (get_fallback_response inp.fi2, false)
       else generate_response (update_persona store cid inp.confidence false).1 inp.gen).1 :=
  rfl

lemma engage_turn_number (P : EngagementPolicy) (store : PersonaStore) (cid : String)
    (inp : EngageInputs) :
    (engage P store cid inp).1.turn_number =
      (update_persona store cid inp.confidence false).1.engagement_turn :=
  rfl

lemma engage_snd (P : EngagementPolicy) (store : PersonaStore) (cid : String)
    (inp : EngageInputs) :
    (engage P store cid inp).2 =
      (if (if inp.genThrows then (get_fallback_response inp.fi2, false)
           else generate_response (update_persona store cid inp.confidence false).1 inp.gen).2
       then storeSet (update_persona store cid inp.confidence false).2 cid
              (update_persona store cid inp.confidence false).1.record_extraction
       else (update_persona store cid inp.confidence false).2) :=
  rfl

/-! ## Claims about the orchestrator -/

/-- C6 counterexample: when both model calls fail, `_generate_response`
returns a canned fallback reply untouched by post-processing, so for a
persona with a positive turn and a non-empty emotional modifier the
returned reply does not start with the modifier, contradicting the claim
that the fallback reply is post-processed too. -/
theorem C6_counterexample :
    (generate_response personaPanicked1 genFail).1 =
        strL "My phone is acting up. What do I need to do exactly?" ∧
    personaPanicked1.engagement_turn > 0 ∧
    get_emotional_modifier personaPanicked1.emotional_state ≠ [] ∧
    List.isPrefixOf (get_emotional_modifier personaPanicked1.emotional_state)
        (generate_response personaPanicked1 genFail).1 = false := by
  refine ⟨by decide, by decide, by decide, by decide⟩

/-- C6 (amended): when the collaborator loop yields non-empty text, the
post-processing holds as claimed — with a positive turn and a non-empty
modifier the reply starts with the modifier, and an extraction question is
appended (trailing periods stripped first) only when the post-modifier
reply contains none of "account", "upi", "link", "number"
case-insensitively; fallback replies are returned without this
post-processing. -/
theorem C6_postprocess (p : Persona) (g : GenInputs) (t : List Char)
    (ht : try_models g.m1 g.m2 = some t) (hne : t ≠ []) :
    (p.engagement_turn > 0 → get_emotional_modifier p.emotional_state ≠ [] →
      ∃ rest, (generate_response p g).1
        = get_emotional_modifier p.emotional_state ++ rest) ∧
    ((generate_response p g).2 = true →
      containsAnyKeyword (apply_modifier p t) = false ∧
      (generate_response p g).1 =
        rstripDots (apply_modifier p t)
          ++ ' ' :: EXTRACTION_QUESTIONS.getD (g.qi % 6) []) := by
  have hgen : generate_response p g =
      (if g.ask then
        (if containsAnyKeyword (apply_modifier p t) then (apply_modifier p t, false)
         else (rstripDots (apply_modifier p t)
                ++ ' ' :: EXTRACTION_QUESTIONS.getD (g.qi % 6) [], true))
       else (apply_modifier p t, false)) := by
    unfold generate_response
    rw [ht]
    simp [hne]
  constructor
  · intro h0 hm
    obtain ⟨rest, hr⟩ := apply_modifier_prefix p t h0 hm
    rw [hgen]
    by_cases ha : g.ask = true
    · by_cases hk : containsAnyKeyword (apply_modifier p t) = true
      · rw [if_pos ha, if_pos hk]
        exact ⟨rest, hr⟩
      · rw [if_pos ha, if_neg hk]
        refine ⟨rstripDots rest ++ ' ' :: EXTRACTION_QUESTIONS.getD (g.qi % 6) [], ?_⟩
        show rstripDots (apply_modifier p t)
            ++ ' ' :: EXTRACTION_QUESTIONS.getD (g.qi % 6) [] = _
        rw [hr, rstripDots_append _ _ (modifier_reverse_head _ hm), List.append_assoc]
    · rw [if_neg ha]
      exact ⟨rest, hr⟩
  · intro hext
    rw [hgen] at hext
    by_cases ha : g.ask = true
    · by_cases hk : containsAnyKeyword (apply_modifier p t) = true
      · rw [if_pos ha, if_pos hk] at hext
        exact absurd hext (by simp)
      · rw [hgen, if_pos ha, if_neg hk]
        exact ⟨by simpa using hk, rfl⟩
    · rw [if_neg ha] at hext
      exact absurd hext (by simp)

/-- C6 witness: with primary text "Okay." on turn 1 in the anxious state,
the reply starts with the anxious modifier. -/
theorem C6_witness :
    ∃ rest, (generate_response personaAnx1 genOk).1 =
      get_emotional_modifier personaAnx1.emotional_state ++ rest :=
  (C6_postprocess personaAnx1 genOk (strL "Okay.") (by decide) (by decide)).1
    (by decide) (by decide)

/-- C7: whenever `_generate_response` raises, or both models return empty
or missing text, the reply `engage` returns is one of the four canned
fallback strings, and is never empty; the embedding is total, so no error
reaches the caller. -/
theorem C7_fallback_on_failure (P : EngagementPolicy) (store : PersonaStore)
    (cid : String) (inp : EngageInputs)
    (h : inp.genThrows = true
      ∨ (model_gave_no_text inp.gen.m1 ∧ model_gave_no_text inp.gen.m2)) :
    (engage P store cid inp).1.response ∈ fallback_responses ∧
    (engage P store cid inp).1.response ≠ [] := by
  have hresp : ∃ i, (engage P store cid inp).1.response = get_fallback_response i := by
    by_cases hth : inp.genThrows = true
    · exact ⟨inp.fi2, by rw [engage_response, if_pos hth]⟩
    · rcases h with h | ⟨h1, h2⟩
      · exact absurd h hth
      · refine ⟨inp.gen.fi, ?_⟩
        have hg := generate_response_no_text
          (update_persona store cid inp.confidence false).1 inp.gen h1 h2
        rw [engage_response, if_neg hth, hg]
  obtain ⟨i, hi⟩ := hresp
  rw [hi]
  exact get_fallback_response_mem i

/-- C7 witness: a call whose generation step raises returns a member of the
fallback list and a non-empty reply. -/
theorem C7_witness :
    (engage defaultPolicy emptyStore "c" inpThrow).1.response ∈ fallback_responses ∧
    (engage defaultPolicy emptyStore "c" inpThrow).1.response ≠ [] :=
  C7_fallback_on_failure defaultPolicy emptyStore "c" inpThrow (Or.inl rfl)

/-- C8: every `engage` call leaves in the store a persona whose turn is the
pre-call turn plus exactly one and whose emotional state is the intensity
threshold of the confidence, in the primary and the fallback branch alike,
and the returned turn number is that post-increment turn. -/
theorem C8_persona_update_once (P : EngagementPolicy) (store : PersonaStore)
    (cid : String) (inp : EngageInputs) :
    ∃ q : Persona,
      storeFind (engage P store cid inp).2 cid = some q ∧
      q.engagement_turn = (get_or_create_persona store cid).1.engagement_turn + 1 ∧
      q.emotional_state = emotional_of_intensity inp.confidence ∧
      (engage P store cid inp).1.turn_number = q.engagement_turn := by
  by_cases hx : (if inp.genThrows then (get_fallback_response inp.fi2, false)
      else generate_response (update_persona store cid inp.confidence false).1 inp.gen).2
      = true
  · refine ⟨(update_persona store cid inp.confidence false).1.record_extraction,
      ?_, ?_, ?_, ?_⟩
    · rw [engage_snd, if_pos hx, storeFind_storeSet_self]
    · simp [Persona.record_extraction, update_persona_fst]
    · simp [Persona.record_extraction, update_persona_fst]
    · rw [engage_turn_number]
      rfl
  · refine ⟨(update_persona store cid inp.confidence false).1, ?_, ?_, ?_, ?_⟩
    · rw [engage_snd, if_neg hx, update_persona_snd, storeFind_storeSet_self]
    · rw [update_persona_fst]
    · rw [update_persona_fst]
    · rw [engage_turn_number]

end StickyNet
